import Mathlib

/-!
Verification of the Glitch Gaming Unreal SDK serialization core.

The C++ source builds JSON payloads by appending to a `std::stringstream`;
the only non-append operation is `seekp(-1, cur)` followed by a write, which
overwrites the last character of the stream.  Since every such overwrite is
immediately followed by writing at least one character, it is modelled here
as `List.dropLast` on the accumulated text followed by an append.

Text is modelled as `List Char` (one entry per byte of the C++ `std::string`;
all payload text is ASCII apart from caller-supplied data, which the code
treats byte-by-byte).  `std::map` iteration is modelled by keeping the map's
entries as a key-sorted association list built by `mapInsert`.
-/

/-- Byte-string model: the character list underlying a C++ `std::string`. -/
abbrev Str := List Char

namespace GlitchSDK

/-- One step of `Internal::EscapeJSON`: the `switch` body for a single
character of the input. -/
def escChar (c : Char) : Str :=
  if c = '"' then ['\\', '"']
  else if c = '\\' then ['\\', '\\']
  else if c = '\n' then ['\\', 'n']
  else if c = '\r' then ['\\', 'r']
  else if c = '\t' then ['\\', 't']
  else [c]

/-- `Internal::EscapeJSON`: the loop `for (char c : input)` appending
`escChar c` for each character. -/
def EscapeJSON : Str → Str
  | [] => []
  | c :: rest => escChar c ++ EscapeJSON rest

/-- A standard string-literal parser for the five escape sequences the
escaper produces: expands `\"`, `\\`, `\n`, `\r`, `\t`, fails on a stray
backslash, and passes every other character through. -/
def unescChar (c : Char) : Option Char :=
  if c = '"' then some '"'
  else if c = '\\' then some '\\'
  else if c = 'n' then some '\n'
  else if c = 'r' then some '\r'
  else if c = 't' then some '\t'
  else none

def unescapeJSON : Str → Option Str
  | [] => some []
  | c :: rest =>
      if c = '\\' then
        match rest with
        | [] => none
        | d :: rest2 =>
            match unescChar d with
            | some e => (unescapeJSON rest2).map (e :: ·)
            | none => none
      else
        (unescapeJSON rest).map (c :: ·)

theorem unescape_escChar (c : Char) (rest : Str) (acc : Str)
    (h : unescapeJSON rest = some acc) :
    unescapeJSON (escChar c ++ rest) = some (c :: acc) := by
  by_cases h1 : c = '"'
  · subst h1; simp [escChar, unescapeJSON, unescChar, h]
  by_cases h2 : c = '\\'
  · subst h2; simp [escChar, unescapeJSON, unescChar, h]
  by_cases h3 : c = '\n'
  · subst h3; simp [escChar, unescapeJSON, unescChar, h]
  by_cases h4 : c = '\r'
  · subst h4; simp [escChar, unescapeJSON, unescChar, h]
  by_cases h5 : c = '\t'
  · subst h5; simp [escChar, unescapeJSON, unescChar, h]
  · have he : escChar c ++ rest = c :: rest := by
      simp [escChar, h1, h2, h3, h4, h5]
    rw [he]
    unfold unescapeJSON
    rw [if_neg h2, h]
    rfl

theorem unescape_EscapeJSON (s : Str) : unescapeJSON (EscapeJSON s) = some s := by
  induction s with
  | nil => rfl
  | cons c rest ih => exact unescape_escChar c (EscapeJSON rest) rest ih

/-- The character for a single decimal digit. -/
def digitCh (d : Nat) : Char := Char.ofNat (48 + d)

/-- Decimal digits of a natural number, fuel-indexed (fuel `n + 1` suffices). -/
def natDigitsGo : Nat → Nat → Str
  | 0, _ => []
  | fuel + 1, n =>
      if n < 10 then [digitCh n]
      else natDigitsGo fuel (n / 10) ++ [digitCh (n % 10)]

/-- Decimal rendering of a natural number, as the C++ stream `<<` prints it. -/
def natStr (n : Nat) : Str := natDigitsGo (n + 1) n

/-- Decimal rendering of an `int`, as the C++ stream `<<` prints it. -/
def intStr (i : Int) : Str :=
  if i < 0 then '-' :: natStr (-i).toNat else natStr i.toNat

theorem natDigitsGo_ne_nil (fuel n : Nat) : natDigitsGo (fuel + 1) n ≠ [] := by
  rw [natDigitsGo]
  split
  · exact List.cons_ne_nil _ _
  · exact fun h => by simp at h

theorem mem_natDigitsGo (fuel n : Nat) :
    ∀ c ∈ natDigitsGo fuel n, ∃ d, d < 10 ∧ c = digitCh d := by
  induction fuel generalizing n with
  | zero => intro c hc; simp [natDigitsGo] at hc
  | succ fuel ih =>
      intro c hc
      rw [natDigitsGo] at hc
      split at hc
      · rename_i hn
        simp at hc
        exact ⟨n, hn, hc⟩
      · rcases List.mem_append.mp hc with h | h
        · exact ih (n / 10) c h
        · simp at h
          exact ⟨n % 10, Nat.mod_lt _ (by norm_num), h⟩

theorem digitCh_ne_quote {d : Nat} (hd : d < 10) : digitCh d ≠ '"' := by
  interval_cases d <;> decide

theorem quote_not_mem_natStr (n : Nat) : '"' ∉ natStr n := by
  intro h
  rcases mem_natDigitsGo _ _ _ h with ⟨d, hd, hc⟩
  exact digitCh_ne_quote hd hc.symm

/-- Left-pad a digit string to six characters (the fixed fractional width
used by the decimal rendering below). -/
def pad6 (s : Str) : Str := List.replicate (6 - s.length) '0' ++ s

/-- Drop trailing zero digits. -/
def trimZeros (s : Str) : Str := (s.reverse.dropWhile (· = '0')).reverse

/-- Modelled from the source's `json << purchase.PurchaseAmount` (C++ stream
default float formatting).  The amount is carried as an exact rational; this
prints its integer part and up to six fractional decimal digits with trailing
zeros trimmed, which agrees with the stream output on the short decimal
amounts the record carries.  Only its bare (unquoted) numeral shape and the
strictly-positive emission test matter to the claims. -/
def renderAmount (q : ℚ) : Str :=
  let ip : Int := q.num.fdiv q.den
  let scaled : Nat := (((q.num - ip * q.den) * 1000000).fdiv q.den).toNat
  if scaled = 0 then intStr ip
  else intStr ip ++ '.' :: trimZeros (pad6 (natStr scaled))

theorem quote_not_mem_intStr (i : Int) : '"' ∉ intStr i := by
  unfold intStr
  split
  · intro h
    rcases List.mem_cons.mp h with h | h
    · exact absurd h.symm (by decide)
    · exact quote_not_mem_natStr _ h
  · exact quote_not_mem_natStr _

theorem quote_not_mem_trimZeros {s : Str} (hs : '"' ∉ s) : '"' ∉ trimZeros s := by
  intro h
  unfold trimZeros at h
  have h1 := List.mem_reverse.mp h
  have h2 := List.dropWhile_sublist (l := s.reverse) (p := (· = '0'))
  exact hs (List.mem_reverse.mp (h2.mem h1))

theorem quote_not_mem_pad6 {s : Str} (hs : '"' ∉ s) : '"' ∉ pad6 s := by
  intro h
  rcases List.mem_append.mp h with h | h
  · have := List.eq_of_mem_replicate h
    exact absurd this (by decide)
  · exact hs h

theorem quote_not_mem_renderAmount (q : ℚ) : '"' ∉ renderAmount q := by
  simp only [renderAmount]
  split
  · exact quote_not_mem_intStr _
  · intro h
    rcases List.mem_append.mp h with h | h
    · exact quote_not_mem_intStr _ h
    · rcases List.mem_cons.mp h with h | h
      · exact absurd h.symm (by decide)
      · exact quote_not_mem_trimZeros (quote_not_mem_pad6 (quote_not_mem_natStr _)) h

theorem EscapeJSON_append (s t : Str) :
    EscapeJSON (s ++ t) = EscapeJSON s ++ EscapeJSON t := by
  induction s with
  | nil => rfl
  | cons c rest ih => simp [EscapeJSON, ih]

/-- C3: `Internal::EscapeJSON` rewrites exactly the five characters
backslash, double-quote, newline, carriage return and tab to their standard
two-character sequences, passes every other character through unchanged, is
a homomorphism for concatenation, and composing it with a standard
string-literal escape parser recovers the original string. -/
theorem claim_C3_escape_roundtrip :
    (∀ s : Str, unescapeJSON (EscapeJSON s) = some s)
    ∧ EscapeJSON ['"'] = ['\\', '"']
    ∧ EscapeJSON ['\\'] = ['\\', '\\']
    ∧ EscapeJSON ['\n'] = ['\\', 'n']
    ∧ EscapeJSON ['\r'] = ['\\', 'r']
    ∧ EscapeJSON ['\t'] = ['\\', 't']
    ∧ (∀ c : Char, c ≠ '"' → c ≠ '\\' → c ≠ '\n' → c ≠ '\r' → c ≠ '\t' →
        EscapeJSON [c] = [c])
    ∧ (∀ s t : Str, EscapeJSON (s ++ t) = EscapeJSON s ++ EscapeJSON t) := by
  refine ⟨unescape_EscapeJSON, rfl, rfl, rfl, rfl, rfl, ?_, EscapeJSON_append⟩
  intro c h1 h2 h3 h4 h5
  simp [EscapeJSON, escChar, h1, h2, h3, h4, h5]

/-- Witness for C3: a concrete string exercising all five escaped
characters round-trips, and an ordinary character passes through. -/
theorem claim_C3_witness :
    unescapeJSON (EscapeJSON "a\n\t\r x\\y\"z".data) = some "a\n\t\r x\\y\"z".data
    ∧ EscapeJSON ['q'] = ['q'] :=
  ⟨claim_C3_escape_roundtrip.1 _,
    claim_C3_escape_roundtrip.2.2.2.2.2.2.1 'q' (by decide) (by decide) (by decide)
      (by decide) (by decide)⟩

/-- The `PurchaseData` struct of `GlitchSDK.h`, with its declared field
defaults.  `PurchaseAmount` (a C++ `float`) is carried as an exact rational:
the serializer only compares it against zero, which agrees with the float
comparison. -/
structure PurchaseData where
  GameInstallID : String := ""
  PurchaseType : String := ""
  PurchaseAmount : ℚ := 0
  Currency : String := ""
  TransactionID : String := ""
  ItemSKU : String := ""
  ItemName : String := ""
  Quantity : Int := 1
  MetadataJSON : String := ""

/-- `PurchaseToJSON`: direct transcription of the stream appends, one
summand per source statement.  Braces are written `\x7b` / `\x7d`. -/
def PurchaseToJSON (p : PurchaseData) : Str :=
  '\x7b' :: "\"game_install_id\":\"".data ++ EscapeJSON p.GameInstallID.data ++ ['"']
  ++ (if p.PurchaseType = "" then [] else
      ",\"purchase_type\":\"".data ++ EscapeJSON p.PurchaseType.data ++ ['"'])
  ++ (if 0 < p.PurchaseAmount then
      ",\"purchase_amount\":".data ++ renderAmount p.PurchaseAmount else [])
  ++ (if p.Currency = "" then [] else
      ",\"currency\":\"".data ++ EscapeJSON p.Currency.data ++ ['"'])
  ++ (if p.TransactionID = "" then [] else
      ",\"transaction_id\":\"".data ++ EscapeJSON p.TransactionID.data ++ ['"'])
  ++ (if p.ItemSKU = "" then [] else
      ",\"item_sku\":\"".data ++ EscapeJSON p.ItemSKU.data ++ ['"'])
  ++ (if p.ItemName = "" then [] else
      ",\"item_name\":\"".data ++ EscapeJSON p.ItemName.data ++ ['"'])
  ++ (if 0 < p.Quantity then ",\"quantity\":".data ++ intStr p.Quantity else [])
  ++ (if p.MetadataJSON = "" then [] else
      ",\"metadata\":".data ++ p.MetadataJSON.data)
  ++ ['\x7d']

/-- The ordered member list (name, rendered value) that `PurchaseToJSON`
emits, read off the same conditions as the source. -/
def purchaseMembers (p : PurchaseData) : List (String × Str) :=
  ("game_install_id", '"' :: EscapeJSON p.GameInstallID.data ++ ['"'])
  :: ((if p.PurchaseType = "" then [] else
        [("purchase_type", '"' :: EscapeJSON p.PurchaseType.data ++ ['"'])])
  ++ (if 0 < p.PurchaseAmount then
        [("purchase_amount", renderAmount p.PurchaseAmount)] else [])
  ++ (if p.Currency = "" then [] else
        [("currency", '"' :: EscapeJSON p.Currency.data ++ ['"'])])
  ++ (if p.TransactionID = "" then [] else
        [("transaction_id", '"' :: EscapeJSON p.TransactionID.data ++ ['"'])])
  ++ (if p.ItemSKU = "" then [] else
        [("item_sku", '"' :: EscapeJSON p.ItemSKU.data ++ ['"'])])
  ++ (if p.ItemName = "" then [] else
        [("item_name", '"' :: EscapeJSON p.ItemName.data ++ ['"'])])
  ++ (if 0 < p.Quantity then [("quantity", intStr p.Quantity)] else [])
  ++ (if p.MetadataJSON = "" then [] else [("metadata", p.MetadataJSON.data)]))

/-- Render one object member as `"name":value`. -/
def renderMember (kv : String × Str) : Str := '"' :: kv.1.data ++ "\":".data ++ kv.2

/-- Render a list of members, each preceded by a comma separator. -/
def renderTail : List (String × Str) → Str
  | [] => []
  | kv :: rest => ',' :: renderMember kv ++ renderTail rest

/-- Render a member list with comma separators between members. -/
def renderMembers : List (String × Str) → Str
  | [] => []
  | kv :: rest => renderMember kv ++ renderTail rest

theorem renderTail_append (a b : List (String × Str)) :
    renderTail (a ++ b) = renderTail a ++ renderTail b := by
  induction a with
  | nil => rfl
  | cons kv rest ih => simp [renderTail, ih]

/-- `PurchaseToJSON` is the brace-wrapped, comma-separated rendering of
`purchaseMembers`: the serializer emits exactly those members in order. -/
theorem PurchaseToJSON_eq_members (p : PurchaseData) :
    PurchaseToJSON p = '\x7b' :: renderMembers (purchaseMembers p) ++ ['\x7d'] := by
  have h1 : (if p.PurchaseType = "" then ([] : Str) else
      ",\"purchase_type\":\"".data ++ EscapeJSON p.PurchaseType.data ++ ['"'])
      = renderTail (if p.PurchaseType = "" then [] else
        [("purchase_type", '"' :: EscapeJSON p.PurchaseType.data ++ ['"'])]) := by
    split <;> simp [renderTail, renderMember]
  have h2 : (if 0 < p.PurchaseAmount then
      ",\"purchase_amount\":".data ++ renderAmount p.PurchaseAmount else ([] : Str))
      = renderTail (if 0 < p.PurchaseAmount then
        [("purchase_amount", renderAmount p.PurchaseAmount)] else []) := by
    split <;> simp [renderTail, renderMember]
  have h3 : (if p.Currency = "" then ([] : Str) else
      ",\"currency\":\"".data ++ EscapeJSON p.Currency.data ++ ['"'])
      = renderTail (if p.Currency = "" then [] else
        [("currency", '"' :: EscapeJSON p.Currency.data ++ ['"'])]) := by
    split <;> simp [renderTail, renderMember]
  have h4 : (if p.TransactionID = "" then ([] : Str) else
      ",\"transaction_id\":\"".data ++ EscapeJSON p.TransactionID.data ++ ['"'])
      = renderTail (if p.TransactionID = "" then [] else
        [("transaction_id", '"' :: EscapeJSON p.TransactionID.data ++ ['"'])]) := by
    split <;> simp [renderTail, renderMember]
  have h5 : (if p.ItemSKU = "" then ([] : Str) else
      ",\"item_sku\":\"".data ++ EscapeJSON p.ItemSKU.data ++ ['"'])
      = renderTail (if p.ItemSKU = "" then [] else
        [("item_sku", '"' :: EscapeJSON p.ItemSKU.data ++ ['"'])]) := by
    split <;> simp [renderTail, renderMember]
  have h6 : (if p.ItemName = "" then ([] : Str) else
      ",\"item_name\":\"".data ++ EscapeJSON p.ItemName.data ++ ['"'])
      = renderTail (if p.ItemName = "" then [] else
        [("item_name", '"' :: EscapeJSON p.ItemName.data ++ ['"'])]) := by
    split <;> simp [renderTail, renderMember]
  have h7 : (if 0 < p.Quantity then ",\"quantity\":".data ++ intStr p.Quantity else ([] : Str))
      = renderTail (if 0 < p.Quantity then [("quantity", intStr p.Quantity)] else []) := by
    split <;> simp [renderTail, renderMember]
  have h8 : (if p.MetadataJSON = "" then ([] : Str) else
      ",\"metadata\":".data ++ p.MetadataJSON.data)
      = renderTail (if p.MetadataJSON = "" then [] else [("metadata", p.MetadataJSON.data)]) := by
    split <;> simp [renderTail, renderMember]
  rw [PurchaseToJSON, purchaseMembers, renderMembers, h1, h2, h3, h4, h5, h6, h7, h8,
    renderTail_append, renderTail_append, renderTail_append, renderTail_append,
    renderTail_append, renderTail_append, renderTail_append]
  simp only [renderMember, List.append_assoc, List.cons_append, List.nil_append]

theorem pm_amount_iff (p : PurchaseData) :
    ("purchase_amount" ∈ (purchaseMembers p).map Prod.fst) ↔ 0 < p.PurchaseAmount := by
  by_cases h : 0 < p.PurchaseAmount
  · simp [purchaseMembers, h]
  · simp only [purchaseMembers, h, if_false, List.map_cons, List.map_append, List.mem_cons,
      List.mem_append, iff_false]
    intro hc
    rcases hc with hc | hc
    · exact absurd hc (by decide)
    · split_ifs at hc <;> simp_all

theorem pm_amount_val (p : PurchaseData) :
    ∀ v, ("purchase_amount", v) ∈ purchaseMembers p → v = renderAmount p.PurchaseAmount := by
  intro v hv
  simp only [purchaseMembers, List.mem_cons, List.mem_append] at hv
  rcases hv with hv | hv
  · simp at hv
  · split_ifs at hv <;> simp_all

theorem pm_metadata_iff (p : PurchaseData) :
    ("metadata" ∈ (purchaseMembers p).map Prod.fst) ↔ p.MetadataJSON ≠ "" := by
  by_cases h : p.MetadataJSON = ""
  · simp only [purchaseMembers, h, if_true, List.map_cons, List.map_append, List.mem_cons,
      List.mem_append, h, ne_eq, not_true_eq_false, iff_false]
    intro hc
    rcases hc with hc | hc
    · exact absurd hc (by decide)
    · split_ifs at hc <;> simp_all
  · simp [purchaseMembers, h]

theorem pm_metadata_val (p : PurchaseData) :
    ∀ v, ("metadata", v) ∈ purchaseMembers p → v = p.MetadataJSON.data := by
  intro v hv
  simp only [purchaseMembers, List.mem_cons, List.mem_append] at hv
  rcases hv with hv | hv
  · simp at hv
  · split_ifs at hv <;> simp_all

theorem purchase_idonly (p : PurchaseData)
    (h1 : p.PurchaseType = "") (h2 : p.PurchaseAmount = 0) (h3 : p.Currency = "")
    (h4 : p.TransactionID = "") (h5 : p.ItemSKU = "") (h6 : p.ItemName = "")
    (h7 : p.Quantity ≤ 0) (h8 : p.MetadataJSON = "") :
    PurchaseToJSON p =
      "\x7b\"game_install_id\":\"".data ++ EscapeJSON p.GameInstallID.data ++ "\"\x7d".data := by
  have h7' : ¬ 0 < p.Quantity := by omega
  simp [PurchaseToJSON, h1, h2, h3, h4, h5, h6, h7', h8]

/-- C4: `PurchaseToJSON` always emits `game_install_id` first (even when the
id is empty); `purchase_amount` is a member exactly when the amount is
strictly positive, and then its value is the bare numeral
`renderAmount` (which never contains a quote character); a record whose
only populated field is `GameInstallID` (everything else empty or zero)
serializes to exactly a single-member object. -/
theorem claim_C4_purchase_layout (p : PurchaseData) :
    (purchaseMembers p).head? =
      some ("game_install_id", '"' :: EscapeJSON p.GameInstallID.data ++ ['"'])
    ∧ PurchaseToJSON p = '\x7b' :: renderMembers (purchaseMembers p) ++ ['\x7d']
    ∧ (("purchase_amount" ∈ (purchaseMembers p).map Prod.fst) ↔ 0 < p.PurchaseAmount)
    ∧ (∀ v, ("purchase_amount", v) ∈ purchaseMembers p →
        v = renderAmount p.PurchaseAmount ∧ '"' ∉ v)
    ∧ (p.PurchaseType = "" → p.PurchaseAmount = 0 → p.Currency = "" →
       p.TransactionID = "" → p.ItemSKU = "" → p.ItemName = "" →
       p.Quantity = 0 → p.MetadataJSON = "" →
        PurchaseToJSON p =
          "\x7b\"game_install_id\":\"".data ++ EscapeJSON p.GameInstallID.data
            ++ "\"\x7d".data) := by
  refine ⟨rfl, PurchaseToJSON_eq_members p, pm_amount_iff p, ?_, ?_⟩
  · intro v hv
    have h := pm_amount_val p v hv
    exact ⟨h, h ▸ quote_not_mem_renderAmount _⟩
  · intro h1 h2 h3 h4 h5 h6 h7 h8
    exact purchase_idonly p h1 h2 h3 h4 h5 h6 (le_of_eq h7) h8

/-- Witness for C4 at a concrete record: only the install id is set
(quantity explicitly zeroed), giving the single-member object. -/
theorem claim_C4_witness :
    PurchaseToJSON { GameInstallID := "abc", Quantity := 0 } =
      "\x7b\"game_install_id\":\"abc\"\x7d".data := by
  have h := (claim_C4_purchase_layout { GameInstallID := "abc", Quantity := 0 }).2.2.2.2
    rfl rfl rfl rfl rfl rfl rfl rfl
  exact h.trans (by decide)

/-- C8: the `metadata` member is present exactly when the caller supplied a
non-empty pre-formed fragment, its value is the caller's text spliced in
verbatim (no escaping, no validation), and when present it sits byte-for-byte
at the end of the serialized object. -/
theorem claim_C8_metadata_verbatim (p : PurchaseData) :
    (("metadata" ∈ (purchaseMembers p).map Prod.fst) ↔ p.MetadataJSON ≠ "")
    ∧ (∀ v, ("metadata", v) ∈ purchaseMembers p → v = p.MetadataJSON.data)
    ∧ (p.MetadataJSON ≠ "" → ∃ pre : Str,
        PurchaseToJSON p =
          pre ++ ",\"metadata\":".data ++ p.MetadataJSON.data ++ ['\x7d']) := by
  refine ⟨pm_metadata_iff p, pm_metadata_val p, ?_⟩
  intro h
  refine ⟨'\x7b' :: "\"game_install_id\":\"".data ++ EscapeJSON p.GameInstallID.data ++ ['"']
    ++ (if p.PurchaseType = "" then [] else
        ",\"purchase_type\":\"".data ++ EscapeJSON p.PurchaseType.data ++ ['"'])
    ++ (if 0 < p.PurchaseAmount then
        ",\"purchase_amount\":".data ++ renderAmount p.PurchaseAmount else [])
    ++ (if p.Currency = "" then [] else
        ",\"currency\":\"".data ++ EscapeJSON p.Currency.data ++ ['"'])
    ++ (if p.TransactionID = "" then [] else
        ",\"transaction_id\":\"".data ++ EscapeJSON p.TransactionID.data ++ ['"'])
    ++ (if p.ItemSKU = "" then [] else
        ",\"item_sku\":\"".data ++ EscapeJSON p.ItemSKU.data ++ ['"'])
    ++ (if p.ItemName = "" then [] else
        ",\"item_name\":\"".data ++ EscapeJSON p.ItemName.data ++ ['"'])
    ++ (if 0 < p.Quantity then ",\"quantity\":".data ++ intStr p.Quantity else []), ?_⟩
  simp [PurchaseToJSON, h, List.append_assoc]

/-- A concrete purchase record carrying a raw pre-formed metadata fragment. -/
def purchaseWithMetadata : PurchaseData :=
  { GameInstallID := "x", MetadataJSON := "\x7b\"k\":1\x7d" }

/-- Witness for C8 at a concrete record carrying a raw metadata fragment. -/
theorem claim_C8_witness :
    (("metadata" ∈ (purchaseMembers purchaseWithMetadata).map Prod.fst) ↔
      purchaseWithMetadata.MetadataJSON ≠ "")
    ∧ (∃ pre : Str,
        PurchaseToJSON purchaseWithMetadata =
          pre ++ ",\"metadata\":".data
            ++ purchaseWithMetadata.MetadataJSON.data ++ ['\x7d']) :=
  ⟨(claim_C8_metadata_verbatim purchaseWithMetadata).1,
    (claim_C8_metadata_verbatim purchaseWithMetadata).2.2 (by decide)⟩

/-- Lexicographic (byte-wise, via code points) comparison of character
lists: the order `std::string::operator<` uses for `std::map` keys. -/
def strLtLB : Str → Str → Bool
  | [], [] => false
  | [], _ :: _ => true
  | _ :: _, [] => false
  | a :: as, b :: bs =>
      if a.toNat < b.toNat then true
      else if b.toNat < a.toNat then false
      else strLtLB as bs

/-- Lexicographic comparison of strings, as `std::string::operator<`. -/
def strLtB (a b : String) : Bool := strLtLB a.data b.data

/-- Insertion into a key-sorted association list: the effect of
`std::map::operator[]` assignment on the map's entry sequence (iteration
order of `std::map` is ascending key order; assigning an existing key
overwrites its value). -/
def mapInsert (k v : String) : List (String × String) → List (String × String)
  | [] => [(k, v)]
  | (k', v') :: rest =>
      if strLtB k k' then (k, v) :: (k', v') :: rest
      else if k = k' then (k, v) :: rest
      else (k', v') :: mapInsert k v rest

/-- The entry sequence of a `std::map` built by inserting the given pairs in
order into an initially empty map. -/
def mapOfList (l : List (String × String)) : List (String × String) :=
  l.foldl (fun m kv => mapInsert kv.1 kv.2 m) []

/-- The `FingerprintComponents` struct of `GlitchSDK.h`, with its declared
defaults.  `KeyboardLayout` holds the `std::map`'s entry sequence in
iteration order (see `mapOfList`). -/
structure FingerprintComponents where
  DeviceModel : String := ""
  DeviceType : String := ""
  DeviceManufacturer : String := ""
  OSName : String := ""
  OSVersion : String := ""
  DisplayResolution : String := ""
  DisplayDensity : Int := 0
  CPUModel : String := ""
  CPUCores : Int := 0
  GPUModel : String := ""
  MemoryMB : Int := 0
  Language : String := ""
  Timezone : String := ""
  Region : String := ""
  FormFactors : List String := []
  Architecture : String := ""
  Bitness : String := ""
  PlatformVersion : String := ""
  IsWow64 : Bool := false
  KeyboardLayout : List (String × String) := []
  AdvertisingID : String := ""

/-- The `device` section of `FingerprintToJSON`.  The source's
`seekp(-1, cur)` followed by the two-character close-and-comma write
overwrites the last character of the stream, i.e. drops the last character
of the group text written so far and appends the two new ones. -/
def deviceGroup (fp : FingerprintComponents) : Str :=
  ("\"device\":\x7b".data
    ++ (if fp.DeviceModel = "" then [] else
        "\"model\":\"".data ++ EscapeJSON fp.DeviceModel.data ++ "\",".data)
    ++ (if fp.DeviceType = "" then [] else
        "\"type\":\"".data ++ EscapeJSON fp.DeviceType.data ++ "\",".data)
    ++ (if fp.DeviceManufacturer = "" then [] else
        "\"manufacturer\":\"".data ++ EscapeJSON fp.DeviceManufacturer.data
          ++ "\",".data)).dropLast
  ++ "\x7d,".data

/-- The `os` section of `FingerprintToJSON`. -/
def osGroup (fp : FingerprintComponents) : Str :=
  ("\"os\":\x7b".data
    ++ (if fp.OSName = "" then [] else
        "\"name\":\"".data ++ EscapeJSON fp.OSName.data ++ "\",".data)
    ++ (if fp.OSVersion = "" then [] else
        "\"version\":\"".data ++ EscapeJSON fp.OSVersion.data ++ "\",".data)).dropLast
  ++ "\x7d,".data

/-- The `display` section of `FingerprintToJSON` (emitted only when the
resolution is non-empty or the density is positive). -/
def displayGroup (fp : FingerprintComponents) : Str :=
  if fp.DisplayResolution ≠ "" ∨ 0 < fp.DisplayDensity then
    ("\"display\":\x7b".data
      ++ (if fp.DisplayResolution = "" then [] else
          "\"resolution\":\"".data ++ EscapeJSON fp.DisplayResolution.data ++ "\",".data)
      ++ (if 0 < fp.DisplayDensity then
          "\"density\":".data ++ intStr fp.DisplayDensity ++ [','] else [])).dropLast
    ++ "\x7d,".data
  else []

/-- The `hardware` section of `FingerprintToJSON`. -/
def hardwareGroup (fp : FingerprintComponents) : Str :=
  ("\"hardware\":\x7b".data
    ++ (if fp.CPUModel = "" then [] else
        "\"cpu\":\"".data ++ EscapeJSON fp.CPUModel.data ++ "\",".data)
    ++ (if 0 < fp.CPUCores then "\"cores\":".data ++ intStr fp.CPUCores ++ [','] else [])
    ++ (if fp.GPUModel = "" then [] else
        "\"gpu\":\"".data ++ EscapeJSON fp.GPUModel.data ++ "\",".data)
    ++ (if 0 < fp.MemoryMB then
        "\"memory\":".data ++ intStr fp.MemoryMB ++ [','] else [])).dropLast
  ++ "\x7d,".data

/-- The `environment` section of `FingerprintToJSON`. -/
def envGroup (fp : FingerprintComponents) : Str :=
  ("\"environment\":\x7b".data
    ++ (if fp.Language = "" then [] else
        "\"language\":\"".data ++ EscapeJSON fp.Language.data ++ "\",".data)
    ++ (if fp.Timezone = "" then [] else
        "\"timezone\":\"".data ++ EscapeJSON fp.Timezone.data ++ "\",".data)
    ++ (if fp.Region = "" then [] else
        "\"region\":\"".data ++ EscapeJSON fp.Region.data ++ "\",".data)).dropLast
  ++ "\x7d,".data

/-- The comma-separated quoted rendering of the `formFactors` array body. -/
def renderFF : List String → Str
  | [] => []
  | [x] => '"' :: EscapeJSON x.data ++ ['"']
  | x :: rest => '"' :: EscapeJSON x.data ++ '"' :: ',' :: renderFF rest

/-- The `desktop_data` section of `FingerprintToJSON` (no trailing-comma
trim here: `wow64` is written last, unconditionally). -/
def desktopGroup (fp : FingerprintComponents) : Str :=
  if fp.FormFactors ≠ [] ∨ fp.Architecture ≠ "" then
    "\"desktop_data\":\x7b".data
    ++ (if fp.FormFactors ≠ [] then
        "\"formFactors\":[".data ++ renderFF fp.FormFactors ++ "],".data else [])
    ++ (if fp.Architecture = "" then [] else
        "\"architecture\":\"".data ++ EscapeJSON fp.Architecture.data ++ "\",".data)
    ++ (if fp.Bitness = "" then [] else
        "\"bitness\":\"".data ++ EscapeJSON fp.Bitness.data ++ "\",".data)
    ++ (if fp.PlatformVersion = "" then [] else
        "\"platformVersion\":\"".data ++ EscapeJSON fp.PlatformVersion.data ++ "\",".data)
    ++ "\"wow64\":".data ++ (if fp.IsWow64 then "true".data else "false".data)
    ++ "\x7d,".data
  else []

/-- The comma-separated rendering of keyboard-layout pairs, in the order the
`std::map` iterates them (the source's `first` flag). -/
def renderKV : List (String × String) → Str
  | [] => []
  | [(k, v)] => '"' :: EscapeJSON k.data ++ "\":\"".data ++ EscapeJSON v.data ++ ['"']
  | (k, v) :: rest =>
      '"' :: EscapeJSON k.data ++ "\":\"".data ++ EscapeJSON v.data ++ '"' :: ','
        :: renderKV rest

/-- The `keyboard_layout` section of `FingerprintToJSON`. -/
def keyboardGroup (fp : FingerprintComponents) : Str :=
  if fp.KeyboardLayout = [] then []
  else "\"keyboard_layout\":\x7b".data ++ renderKV fp.KeyboardLayout ++ "\x7d,".data

/-- The `identifiers` section of `FingerprintToJSON`. -/
def identifiersGroup (fp : FingerprintComponents) : Str :=
  if fp.AdvertisingID = "" then []
  else "\"identifiers\":\x7b\"advertising_id\":\"".data
    ++ EscapeJSON fp.AdvertisingID.data ++ "\"\x7d,".data

/-- `FingerprintToJSON`: the sections in source order, then the final
`seekp(-1, cur)` overwrite (drop the last character written) and the closing
brace. -/
def FingerprintToJSON (fp : FingerprintComponents) : Str :=
  ('\x7b' :: deviceGroup fp ++ osGroup fp ++ displayGroup fp ++ hardwareGroup fp
    ++ envGroup fp ++ desktopGroup fp ++ keyboardGroup fp
    ++ identifiersGroup fp).dropLast
  ++ ['\x7d']

/-- Consume the remainder of a double-quoted JSON string (after the opening
quote), honouring backslash escapes; returns the text after the closing
quote. -/
def chompString : Str → Option Str
  | '\\' :: _ :: rest => chompString rest
  | '"' :: rest => some rest
  | _ :: rest => chompString rest
  | [] => none

/-- Characters that may appear in a JSON number token (a lenient superset:
the validator only needs to recognise the well-formed numerals the
serializer emits and to reject structural damage). -/
def numChar (c : Char) : Bool :=
  c.isDigit || c = '.' || c = '-' || c = '+' || c = 'e' || c = 'E'

/-- Parser mode: a value, the members of an object (after `\x7b`), or the
elements of an array (after `[`). -/
inductive PMode where
  | value : PMode
  | members : PMode
  | elems : PMode

/-- Fuel-indexed recursive-descent recogniser for (whitespace-free) JSON
text, returning the unconsumed remainder on success. -/
def parseJ : Nat → PMode → Str → Option Str
  | 0, _, _ => none
  | _ + 1, .value, [] => none
  | fuel + 1, .value, c :: rest =>
      if c = '"' then chompString rest
      else if c = '\x7b' then
        match rest with
        | '\x7d' :: r => some r
        | _ => parseJ fuel .members rest
      else if c = '[' then
        match rest with
        | ']' :: r => some r
        | _ => parseJ fuel .elems rest
      else if c = 't' then
        match rest with
        | 'r' :: 'u' :: 'e' :: r => some r
        | _ => none
      else if c = 'f' then
        match rest with
        | 'a' :: 'l' :: 's' :: 'e' :: r => some r
        | _ => none
      else if c = 'n' then
        match rest with
        | 'u' :: 'l' :: 'l' :: r => some r
        | _ => none
      else if numChar c then some (rest.dropWhile numChar)
      else none
  | fuel + 1, .members, s =>
      match s with
      | '"' :: rest =>
          match chompString rest with
          | some (':' :: r2) =>
              match parseJ fuel .value r2 with
              | some (',' :: r3) => parseJ fuel .members r3
              | some ('\x7d' :: r3) => some r3
              | _ => none
          | _ => none
      | _ => none
  | fuel + 1, .elems, s =>
      match parseJ fuel .value s with
      | some (',' :: r2) => parseJ fuel .elems r2
      | some (']' :: r2) => some r2
      | _ => none

/-- A text is a well-formed (whitespace-free) JSON value iff the recogniser
consumes it completely. -/
def jsonValid (s : Str) : Bool := parseJ (s.length + 1) .value s == some []

/-- The all-empty fingerprint record: every field empty, zero or false. -/
def emptyFingerprint : FingerprintComponents := {}

/-- C1 (falsified by the code): for the all-empty record the `device`, `os`,
`hardware` and `environment` member names are still emitted — the serializer
opens these four groups unconditionally, and the `seekp(-1)` trim then eats
each group's opening brace, leaving `"device":}` shapes. -/
theorem claim_C1_groups_not_omitted :
    FingerprintToJSON emptyFingerprint =
      "\x7b\"device\":\x7d,\"os\":\x7d,\"hardware\":\x7d,\"environment\":\x7d\x7d".data
    ∧ "\"device\":".data <:+: FingerprintToJSON emptyFingerprint
    ∧ "\"os\":".data <:+: FingerprintToJSON emptyFingerprint
    ∧ "\"hardware\":".data <:+: FingerprintToJSON emptyFingerprint
    ∧ "\"environment\":".data <:+: FingerprintToJSON emptyFingerprint := by
  refine ⟨by decide, by decide, by decide, by decide, by decide⟩

/-- C2 (falsified by the code): serializing the all-empty record yields
text that is not a well-formed JSON object — one opening brace against five
closing braces, with brace-less `"device":}` members. -/
theorem claim_C2_empty_record_malformed :
    FingerprintToJSON emptyFingerprint =
      "\x7b\"device\":\x7d,\"os\":\x7d,\"hardware\":\x7d,\"environment\":\x7d\x7d".data
    ∧ jsonValid (FingerprintToJSON emptyFingerprint) = false
    ∧ (FingerprintToJSON emptyFingerprint).count '\x7b' = 1
    ∧ (FingerprintToJSON emptyFingerprint).count '\x7d' = 5 := by
  refine ⟨by decide, by decide, by decide, by decide⟩

theorem intStr_ne_nil (i : Int) : intStr i ≠ [] := by
  unfold intStr
  split
  · exact List.cons_ne_nil _ _
  · exact natDigitsGo_ne_nil _ _

/-- Any segment of the section concatenation that is followed by at least
one more character survives the final trailing-comma trim and occurs inside
the serialized fingerprint. -/
theorem fingerprint_contains_seg {fp : FingerprintComponents} {m s t : Str}
    (hbody : '\x7b' :: deviceGroup fp ++ osGroup fp ++ displayGroup fp
        ++ hardwareGroup fp ++ envGroup fp ++ desktopGroup fp ++ keyboardGroup fp
        ++ identifiersGroup fp
      = s ++ m ++ t)
    (ht : t ≠ []) : m <:+: FingerprintToJSON fp := by
  unfold FingerprintToJSON
  have hmt : m ++ t ≠ [] := fun hc => ht (List.append_eq_nil.mp hc).2
  rw [hbody, List.append_assoc, List.dropLast_append_of_ne_nil _ hmt,
    List.dropLast_append_of_ne_nil _ ht]
  exact ⟨s, t.dropLast ++ ['\x7d'], by simp [List.append_assoc]⟩

/-- C7: whenever the `desktop_data` group is present (form factors or
architecture non-empty), the `wow64` member is emitted unconditionally, with
the bare literal `true` or `false` matching the record's flag. -/
theorem claim_C7_wow64_always (fp : FingerprintComponents)
    (h : fp.FormFactors ≠ [] ∨ fp.Architecture ≠ "") :
    ("\"wow64\":".data ++ (if fp.IsWow64 then "true".data else "false".data))
      <:+: FingerprintToJSON fp := by
  apply fingerprint_contains_seg (s := '\x7b' :: deviceGroup fp ++ osGroup fp ++ displayGroup fp
    ++ hardwareGroup fp ++ envGroup fp
    ++ ("\"desktop_data\":\x7b".data
      ++ (if fp.FormFactors ≠ [] then
          "\"formFactors\":[".data ++ renderFF fp.FormFactors ++ "],".data else [])
      ++ (if fp.Architecture = "" then [] else
          "\"architecture\":\"".data ++ EscapeJSON fp.Architecture.data ++ "\",".data)
      ++ (if fp.Bitness = "" then [] else
          "\"bitness\":\"".data ++ EscapeJSON fp.Bitness.data ++ "\",".data)
      ++ (if fp.PlatformVersion = "" then [] else
          "\"platformVersion\":\"".data ++ EscapeJSON fp.PlatformVersion.data
            ++ "\",".data)))
    (t := '\x7d' :: ',' :: (keyboardGroup fp ++ identifiersGroup fp))
  · have hd : ("\x7d,".data : Str) = ['\x7d', ','] := rfl
    simp only [desktopGroup, if_pos h, hd, List.append_assoc, List.cons_append,
      List.nil_append]
  · exact List.cons_ne_nil _ _

theorem strLtLB_irrefl : ∀ s : Str, strLtLB s s = false := by
  intro s
  induction s with
  | nil => rfl
  | cons a as ih => simp [strLtLB, ih]

theorem strLtLB_trans :
    ∀ {s t u : Str}, strLtLB s t = true → strLtLB t u = true → strLtLB s u = true := by
  intro s
  induction s with
  | nil =>
      intro t u hst htu
      cases t with
      | nil => simp [strLtLB] at hst
      | cons b bs =>
          cases u with
          | nil => simp [strLtLB] at htu
          | cons c cs => rfl
  | cons a as ih =>
      intro t u hst htu
      cases t with
      | nil => simp [strLtLB] at hst
      | cons b bs =>
          cases u with
          | nil => simp [strLtLB] at htu
          | cons c cs =>
              simp only [strLtLB] at hst htu ⊢
              split_ifs at hst htu ⊢ with g1 g2 g3 g4 g5 g6
              all_goals try rfl
              all_goals try omega
              all_goals exact ih hst htu

theorem strLtLB_eq_of_not :
    ∀ {s t : Str}, strLtLB s t = false → strLtLB t s = false → s = t := by
  intro s
  induction s with
  | nil =>
      intro t hst _
      cases t with
      | nil => rfl
      | cons b bs => simp [strLtLB] at hst
  | cons a as ih =>
      intro t hst hts
      cases t with
      | nil => simp [strLtLB] at hts
      | cons b bs =>
          simp only [strLtLB] at hst hts
          by_cases h1 : a.toNat < b.toNat
          · rw [if_pos h1] at hst
            exact absurd hst (by decide)
          · by_cases h2 : b.toNat < a.toNat
            · rw [if_pos h2] at hts
              exact absurd hts (by decide)
            · rw [if_neg h1, if_neg h2] at hst
              rw [if_neg h2, if_neg h1] at hts
              have hn : a.toNat = b.toNat := by omega
              have hab : a = b := by
                rw [← Char.ofNat_toNat a, ← Char.ofNat_toNat b, hn]
              rw [hab, ih hst hts]

/-- Key order on map entries: ascending lexicographic key-name order, the
iteration order of `std::map<std::string, std::string>`. -/
def keyLt (a b : String × String) : Prop := strLtB a.1 b.1 = true

theorem keyLt_trans {a b c : String × String} :
    keyLt a b → keyLt b c → keyLt a c := strLtLB_trans

theorem keyLt_irrefl (a : String × String) : ¬ keyLt a a := by
  simp [keyLt, strLtB, strLtLB_irrefl]

theorem strLtB_connex {a b : String} (h1 : ¬ strLtB a b = true) (h2 : a ≠ b) :
    strLtB b a = true := by
  by_contra h3
  apply h2
  have e1 : strLtLB a.data b.data = false := by
    simpa [strLtB] using Bool.eq_false_iff.mpr h1
  have e2 : strLtLB b.data a.data = false := by
    simpa [strLtB] using Bool.eq_false_iff.mpr h3
  exact String.ext (strLtLB_eq_of_not e1 e2)

instance : IsAntisymm (String × String) keyLt :=
  ⟨fun a b h1 h2 => absurd (keyLt_trans h1 h2) (keyLt_irrefl a)⟩

theorem mem_mapInsert {k v : String} {b : String × String} :
    ∀ {m}, b ∈ mapInsert k v m → b = (k, v) ∨ b ∈ m := by
  intro m
  induction m with
  | nil => simp [mapInsert]
  | cons hd tl ih =>
      simp only [mapInsert]
      split_ifs with h1 h2
      · simp
      · simp only [List.mem_cons]
        rintro (h | h) <;> simp [h]
      · simp only [List.mem_cons]
        rintro (h | h)
        · simp [h]
        · rcases ih h with h | h <;> simp [h]

theorem mapInsert_sorted {k v : String} :
    ∀ {m}, List.Sorted keyLt m → List.Sorted keyLt (mapInsert k v m) := by
  intro m
  induction m with
  | nil => intro _; simp [mapInsert, List.sorted_singleton]
  | cons hd tl ih =>
      intro hs
      rw [List.sorted_cons] at hs
      simp only [mapInsert]
      split_ifs with h1 h2
      · rw [List.sorted_cons]
        refine ⟨?_, List.sorted_cons.mpr hs⟩
        intro b hb
        rcases List.mem_cons.mp hb with rfl | hb
        · exact h1
        · exact keyLt_trans h1 (hs.1 b hb)
      · rw [List.sorted_cons]
        refine ⟨?_, hs.2⟩
        intro b hb
        simpa [keyLt, h2] using hs.1 b hb
      · rw [List.sorted_cons]
        refine ⟨?_, ih hs.2⟩
        intro b hb
        rcases mem_mapInsert hb with rfl | hb
        · exact strLtB_connex h1 h2
        · exact hs.1 b hb

theorem mapInsert_perm {k v : String} :
    ∀ {m}, k ∉ m.map Prod.fst → (mapInsert k v m).Perm ((k, v) :: m) := by
  intro m
  induction m with
  | nil => intro _; rfl
  | cons hd tl ih =>
      intro h
      simp only [List.map_cons, List.mem_cons] at h
      push_neg at h
      simp only [mapInsert]
      split_ifs with h1 h2
      · rfl
      · exact absurd h2 h.1
      · exact ((ih h.2).cons hd).trans (List.Perm.swap (k, v) hd tl)

theorem foldl_mapInsert_perm :
    ∀ (l m : List (String × String)), ((m ++ l).map Prod.fst).Nodup →
      (l.foldl (fun acc kv => mapInsert kv.1 kv.2 acc) m).Perm (m ++ l)
  | [], m, _ => by simp
  | a :: l, m, h => by
      simp only [List.foldl_cons]
      have hnotin : a.1 ∉ m.map Prod.fst := by
        rw [List.map_append, List.nodup_append] at h
        intro hmem
        exact h.2.2 hmem (by simp)
      have hperm1 : (mapInsert a.1 a.2 m).Perm (a :: m) := mapInsert_perm hnotin
      have hp2 : (m ++ a :: l).Perm ((a :: m) ++ l) := List.perm_middle
      have hkeys : ((mapInsert a.1 a.2 m ++ l).map Prod.fst).Nodup := by
        have hp : (mapInsert a.1 a.2 m ++ l).Perm ((a :: m) ++ l) := hperm1.append_right l
        exact ((hp.map Prod.fst).nodup_iff).mpr (((hp2.map Prod.fst).nodup_iff).mp h)
      exact (foldl_mapInsert_perm l _ hkeys).trans
        ((hperm1.append_right l).trans hp2.symm)

theorem foldl_mapInsert_sorted :
    ∀ (l m : List (String × String)), List.Sorted keyLt m →
      List.Sorted keyLt (l.foldl (fun acc kv => mapInsert kv.1 kv.2 acc) m)
  | [], _, h => h
  | a :: l, m, h => foldl_mapInsert_sorted l _ (mapInsert_sorted h)

theorem mapOfList_sorted (l : List (String × String)) :
    List.Sorted keyLt (mapOfList l) :=
  foldl_mapInsert_sorted l [] (by simp)

theorem mapOfList_perm {l : List (String × String)}
    (h : (l.map Prod.fst).Nodup) : (mapOfList l).Perm l := by
  simpa [mapOfList] using foldl_mapInsert_perm l [] (by simpa using h)

theorem mapOfList_eq_of_perm {l₁ l₂ : List (String × String)}
    (h₁ : (l₁.map Prod.fst).Nodup) (hp : l₁.Perm l₂) :
    mapOfList l₁ = mapOfList l₂ := by
  have h₂ : (l₂.map Prod.fst).Nodup := ((hp.map Prod.fst).nodup_iff).mp h₁
  exact List.eq_of_perm_of_sorted
    ((mapOfList_perm h₁).trans (hp.trans (mapOfList_perm h₂).symm))
    (mapOfList_sorted l₁) (mapOfList_sorted l₂)

/-- C6: with a non-empty keyboard layout map the `keyboard_layout` group is
present; a map built by insertions is strictly sorted in ascending key order
(and is rendered in exactly that order); two insertion sequences with the
same key-value pairs (in any order, keys distinct) give byte-identical
serialized output; an empty map contributes nothing. -/
theorem claim_C6_keyboard_layout (fp : FingerprintComponents)
    (l₁ l₂ : List (String × String))
    (hnd : (l₁.map Prod.fst).Nodup) (hp : l₁.Perm l₂) :
    FingerprintToJSON { fp with KeyboardLayout := mapOfList l₁ } =
      FingerprintToJSON { fp with KeyboardLayout := mapOfList l₂ }
    ∧ List.Sorted keyLt (mapOfList l₁)
    ∧ (mapOfList l₁ ≠ [] →
        "\"keyboard_layout\":\x7b".data
          <:+: FingerprintToJSON { fp with KeyboardLayout := mapOfList l₁ })
    ∧ (fp.KeyboardLayout = [] → keyboardGroup fp = []) := by
  refine ⟨by rw [mapOfList_eq_of_perm hnd hp], mapOfList_sorted l₁, ?_, ?_⟩
  · intro hne
    set fp' : FingerprintComponents := { fp with KeyboardLayout := mapOfList l₁ } with hfp
    apply fingerprint_contains_seg (s := '\x7b' :: deviceGroup fp' ++ osGroup fp'
      ++ displayGroup fp' ++ hardwareGroup fp' ++ envGroup fp' ++ desktopGroup fp')
      (t := renderKV (mapOfList l₁) ++ '\x7d' :: ',' :: identifiersGroup fp')
    · have hd : ("\x7d,".data : Str) = ['\x7d', ','] := rfl
      have hk : keyboardGroup fp' =
          "\"keyboard_layout\":\x7b".data ++ renderKV (mapOfList l₁) ++ "\x7d,".data := by
        simp [keyboardGroup, hfp, hne]
      rw [hk, hd]
      simp only [List.append_assoc, List.cons_append, List.nil_append]
    · intro hc
      rcases List.append_eq_nil.mp hc with ⟨_, hc2⟩
      exact List.cons_ne_nil _ _ hc2
  · intro h
    simp [keyboardGroup, h]

/-- The three build-time platform variants of the probe code. -/
inductive Platform where
  | windows : Platform
  | apple : Platform
  | linux : Platform
deriving DecidableEq

/-- Results of the operating-system calls the probe code makes, passed in as
an environment: each field models one system call's outcome (`..Ok = false`
or a zero size / empty list meaning the call could not obtain data). -/
structure ProbeEnv where
  platform : Platform
  winVersionOk : Bool := false
  winMajor : Nat := 0
  winMinor : Nat := 0
  winBuild : Nat := 0
  winIsAmd64 : Bool := false
  cpuidMaxExt : Nat := 0
  cpuidBrand : String := ""
  winMemOk : Bool := false
  winMemMB : Int := 0
  screenW : Int := 0
  screenH : Int := 0
  unameOk : Bool := false
  unameRelease : String := ""
  sysctlBrandSize : Nat := 0
  sysctlBrand : String := ""
  sysctlCoresOk : Bool := false
  sysctlCores : Int := 0
  sysctlMemOk : Bool := false
  sysctlMemMB : Int := 0
  cpuinfoOpen : Bool := false
  cpuinfoLines : List String := []
  meminfoOpen : Bool := false
  meminfoLines : List String := []

/-- Text after the first `: ` marker of a line (`line.substr(pos + 2)` after
`line.find(": ")`). -/
def afterColonSpace : Str → Option Str
  | ':' :: ' ' :: rest => some rest
  | _ :: rest => afterColonSpace rest
  | [] => none

/-- The `/proc/cpuinfo` scan: the first line containing `model name` whose
`: ` marker is found yields the text after the marker. -/
def linuxCpuModel (lines : List String) : Option String :=
  match lines.find? (fun l =>
      decide ("model name".data <:+: l.data) && (afterColonSpace l.data).isSome) with
  | some l => (afterColonSpace l.data).map String.mk
  | none => none

/-- Numeric value of a digit string. -/
def digitsVal (s : Str) : Nat := s.foldl (fun a c => a * 10 + (c.toNat - 48)) 0

/-- The `operator>>` integer extraction: longest digit prefix (zero when the
token does not start with a digit, as a failed C++ stream extraction stores
zero). -/
def streamNat (tok : String) : Nat := digitsVal (tok.data.takeWhile Char.isDigit)

/-- The `/proc/meminfo` scan: on the first `MemTotal:` line, `ss >> label >>
memKB` reads the second whitespace-separated token as the kilobyte count. -/
def linuxMemKB (lines : List String) : Option Nat :=
  match lines.find? (fun l => decide ("MemTotal:".data <+: l.data)) with
  | some l =>
      match (l.split (fun c => c = ' ')).filter (fun t => t ≠ "") with
      | _ :: t :: _ => some (streamNat t)
      | _ => some 0
  | none => none

/-- `Internal::GetSystemInfo`, with the per-platform `#ifdef` branches and
each OS call's outcome drawn from the environment.  Every key that no branch
resolves falls through to the sentinel `"unknown"`. -/
def GetSystemInfo (env : ProbeEnv) (key : String) : String :=
  match env.platform with
  | .windows =>
      if key = "os_name" then "Windows"
      else if key = "device_type" then "desktop"
      else if key = "os_version" then
        if env.winVersionOk then
          String.mk (natStr env.winMajor) ++ "." ++ String.mk (natStr env.winMinor)
            ++ "." ++ String.mk (natStr env.winBuild)
        else "10.0"
      else if key = "architecture" then
        if env.winIsAmd64 then "x86" else "unknown"
      else "unknown"
  | .apple =>
      if key = "os_name" then "MacOS"
      else if key = "device_type" then "desktop"
      else if key = "os_version" then
        if env.unameOk then env.unameRelease else "unknown"
      else "unknown"
  | .linux =>
      if key = "os_name" then "Linux"
      else if key = "device_type" then "desktop"
      else if key = "os_version" then
        if env.unameOk then env.unameRelease else "unknown"
      else "unknown"

/-- `CollectSystemFingerprint`: seeds the four `GetSystemInfo` fields, runs
the platform-specific hardware probes, then applies the two trailing
defaults (`device_type`, `language`) to fields still empty. -/
def CollectSystemFingerprint (env : ProbeEnv) : FingerprintComponents :=
  let base : FingerprintComponents :=
    { OSName := GetSystemInfo env "os_name"
      OSVersion := GetSystemInfo env "os_version"
      DeviceType := GetSystemInfo env "device_type"
      Architecture := GetSystemInfo env "architecture" }
  let fp : FingerprintComponents :=
    match env.platform with
    | .windows =>
        { base with
          FormFactors := ["Desktop"]
          Bitness := "64"
          PlatformVersion := GetSystemInfo env "os_version"
          CPUModel :=
            if 0x80000004 ≤ env.cpuidMaxExt then env.cpuidBrand else base.CPUModel
          MemoryMB := if env.winMemOk then env.winMemMB else base.MemoryMB
          DisplayResolution :=
            if 0 < env.screenW ∧ 0 < env.screenH then
              String.mk (intStr env.screenW) ++ "x" ++ String.mk (intStr env.screenH)
            else base.DisplayResolution }
    | .apple =>
        { base with
          FormFactors := ["Desktop"]
          CPUModel :=
            if 0 < env.sysctlBrandSize then env.sysctlBrand else base.CPUModel
          CPUCores := if env.sysctlCoresOk then env.sysctlCores else base.CPUCores
          MemoryMB := if env.sysctlMemOk then env.sysctlMemMB else base.MemoryMB }
    | .linux =>
        { base with
          FormFactors := ["Desktop"]
          CPUModel :=
            if env.cpuinfoOpen then
              match linuxCpuModel env.cpuinfoLines with
              | some m => m
              | none => base.CPUModel
            else base.CPUModel
          MemoryMB :=
            if env.meminfoOpen then
              match linuxMemKB env.meminfoLines with
              | some kb => ((kb / 1024 : Nat) : Int)
              | none => base.MemoryMB
            else base.MemoryMB }
  let fp2 := if fp.DeviceType = "" then { fp with DeviceType := "desktop" } else fp
  if fp2.Language = "" then { fp2 with Language := "en-US" } else fp2

/-- A Linux environment in which every probe fails. -/
def envLinuxAllFail : ProbeEnv := { platform := .linux }

/-- A Windows environment in which every probe fails. -/
def envWinAllFail : ProbeEnv := { platform := .windows }

/-- C5 counterexample: on a Linux host no probe can obtain an architecture
at all, yet the collected fingerprint carries the sentinel `"unknown"` in
`Architecture` instead of leaving the field unset. -/
theorem claim_C5_counterexample :
    (CollectSystemFingerprint envLinuxAllFail).Architecture = "unknown"
    ∧ (CollectSystemFingerprint envLinuxAllFail).Architecture ≠ "" := by
  constructor <;> decide

/-- C5 (amended): hardware probe fields (CPU model, cores, memory, display
resolution) are left unset when their probes fail, and untouched fields stay
empty; `device_type` and `language` default to `"desktop"` / `"en-US"`.
However the four `GetSystemInfo`-seeded fields are not left unset on
failure: `Architecture` receives the sentinel `"unknown"` on non-Windows
hosts (and on Windows without AMD64), `OSVersion` falls back to `"10.0"` on
Windows and `"unknown"` elsewhere, `FormFactors` is always synthesized as
`["Desktop"]`, and Windows always assumes `Bitness = "64"`. -/
theorem claim_C5_probe_failure_policy (env : ProbeEnv) :
    (CollectSystemFingerprint env).DeviceType = "desktop"
    ∧ (CollectSystemFingerprint env).Language = "en-US"
    ∧ (CollectSystemFingerprint env).FormFactors = ["Desktop"]
    ∧ (env.platform ≠ .windows →
        (CollectSystemFingerprint env).Architecture = "unknown")
    ∧ (env.platform = .windows → env.winIsAmd64 = false →
        (CollectSystemFingerprint env).Architecture = "unknown")
    ∧ (env.platform = .windows → (CollectSystemFingerprint env).Bitness = "64")
    ∧ (env.platform = .windows → env.winVersionOk = false →
        (CollectSystemFingerprint env).OSVersion = "10.0")
    ∧ (env.platform ≠ .windows → env.unameOk = false →
        (CollectSystemFingerprint env).OSVersion = "unknown")
    ∧ (env.platform = .linux → env.cpuinfoOpen = false →
        (CollectSystemFingerprint env).CPUModel = "")
    ∧ (env.platform = .linux → env.meminfoOpen = false →
        (CollectSystemFingerprint env).MemoryMB = 0)
    ∧ (env.platform = .windows → env.winMemOk = false →
        (CollectSystemFingerprint env).MemoryMB = 0)
    ∧ (env.platform = .windows →
        ¬ (0 < env.screenW ∧ 0 < env.screenH) →
        (CollectSystemFingerprint env).DisplayResolution = "")
    ∧ (env.platform = .apple → env.sysctlBrandSize = 0 →
        (CollectSystemFingerprint env).CPUModel = "")
    ∧ (CollectSystemFingerprint env).GPUModel = ""
    ∧ (CollectSystemFingerprint env).Timezone = ""
    ∧ (CollectSystemFingerprint env).Region = ""
    ∧ (CollectSystemFingerprint env).DeviceModel = ""
    ∧ (CollectSystemFingerprint env).AdvertisingID = "" := by
  cases hpf : env.platform <;>
    simp_all [CollectSystemFingerprint, GetSystemInfo] <;>
    split_ifs <;> simp_all

/-- Witness for C5 at the all-failing Linux and Windows environments. -/
theorem claim_C5_witness :
    (CollectSystemFingerprint envLinuxAllFail).DeviceType = "desktop"
    ∧ (CollectSystemFingerprint envLinuxAllFail).Language = "en-US"
    ∧ (CollectSystemFingerprint envLinuxAllFail).CPUModel = ""
    ∧ (CollectSystemFingerprint envWinAllFail).Bitness = "64"
    ∧ (CollectSystemFingerprint envWinAllFail).OSVersion = "10.0" := by
  refine ⟨(claim_C5_probe_failure_policy envLinuxAllFail).1,
    (claim_C5_probe_failure_policy envLinuxAllFail).2.1,
    (claim_C5_probe_failure_policy envLinuxAllFail).2.2.2.2.2.2.2.2.1 rfl rfl,
    (claim_C5_probe_failure_policy envWinAllFail).2.2.2.2.2.1 rfl,
    (claim_C5_probe_failure_policy envWinAllFail).2.2.2.2.2.2.1 rfl rfl⟩

/-- The request body built by `CreateInstallRecord` (the basic path):
verbatim concatenation of the raw-string pieces with `userInstallId` and
`platform`, no escaping. -/
def basicInstallBody (userInstallId platform : String) : Str :=
  "\x7b\"user_install_id\":\"".data ++ userInstallId.data
    ++ "\",\"platform\":\"".data ++ platform.data ++ "\"\x7d".data

/-- The request body built by `CreateInstallRecordWithFingerprint`:
the same parameters pass through `Internal::EscapeJSON` before embedding,
optional members and the nested fingerprint follow. -/
def fingerprintInstallBody (userInstallId platform gameVersion referralSource : String)
    (fp : FingerprintComponents) : Str :=
  "\x7b\"user_install_id\":\"".data ++ EscapeJSON userInstallId.data ++ "\",".data
  ++ "\"platform\":\"".data ++ EscapeJSON platform.data ++ "\",".data
  ++ (if gameVersion = "" then [] else
      "\"game_version\":\"".data ++ EscapeJSON gameVersion.data ++ "\",".data)
  ++ (if referralSource = "" then [] else
      "\"referral_source\":\"".data ++ EscapeJSON referralSource.data ++ "\",".data)
  ++ "\"fingerprint_components\":".data ++ FingerprintToJSON fp
  ++ "\x7d".data

/-- A fingerprint populated enough that every unconditionally opened group
has a member, so its serialization is well-formed. -/
def fpPopulated : FingerprintComponents :=
  { DeviceType := "desktop", OSName := "Linux", CPUModel := "cpu", Language := "en-US" }

set_option maxRecDepth 10000 in
/-- C9: the basic install path splices `userInstallId` into its body
verbatim; an id containing a double quote yields a body that is not a
well-formed JSON object, while `CreateInstallRecordWithFingerprint` passes
the same id through the escaper and produces a well-formed body. -/
theorem claim_C9_basic_install_unescaped :
    ('"' ∈ ("a\"b" : String).data)
    ∧ basicInstallBody "a\"b" "steam" =
        "\x7b\"user_install_id\":\"a\"b\",\"platform\":\"steam\"\x7d".data
    ∧ jsonValid (basicInstallBody "a\"b" "steam") = false
    ∧ jsonValid (fingerprintInstallBody "a\"b" "steam" "" "" fpPopulated) = true := by
  refine ⟨by decide, by decide, by decide, by decide⟩

/-- Two insertion orders of the same two keyboard pairs. -/
def kbPairsA : List (String × String) := [("KeyB", "b"), ("KeyA", "a")]

/-- The other insertion order of the same two keyboard pairs. -/
def kbPairsB : List (String × String) := [("KeyA", "a"), ("KeyB", "b")]

/-- Witness for C6 at two concrete insertion orders of the same pairs. -/
theorem claim_C6_witness :
    FingerprintToJSON { KeyboardLayout := mapOfList kbPairsA } =
      FingerprintToJSON { KeyboardLayout := mapOfList kbPairsB }
    ∧ List.Sorted keyLt (mapOfList kbPairsA)
    ∧ "\"keyboard_layout\":\x7b".data
        <:+: FingerprintToJSON { KeyboardLayout := mapOfList kbPairsA } := by
  have h := claim_C6_keyboard_layout {} kbPairsA kbPairsB (by decide)
    (by decide)
  exact ⟨h.1, h.2.1, h.2.2.1 (by decide)⟩

/-- A concrete record whose desktop group is present and whose wow64 flag
is false. -/
def fpWowFalse : FingerprintComponents := { Architecture := "x86" }

/-- A concrete record whose desktop group is present and whose wow64 flag
is true. -/
def fpWowTrue : FingerprintComponents := { Architecture := "x86", IsWow64 := true }

/-- Witness for C7: both truth values of the flag render, as `false` and
`true` respectively. -/
theorem claim_C7_witness :
    ("\"wow64\":".data ++ (if fpWowFalse.IsWow64 then "true".data else "false".data))
      <:+: FingerprintToJSON fpWowFalse
    ∧ ("\"wow64\":".data ++ (if fpWowTrue.IsWow64 then "true".data else "false".data))
      <:+: FingerprintToJSON fpWowTrue :=
  ⟨claim_C7_wow64_always fpWowFalse (Or.inr (by decide)),
    claim_C7_wow64_always fpWowTrue (Or.inr (by decide))⟩

/-- C10 counterexample: a record with a strictly negative quantity (not zero)
also produces the id-only object, so the id-only shape does not require the
quantity to be exactly zero. -/
theorem claim_C10_counterexample :
    PurchaseToJSON { GameInstallID := "x", Quantity := -1 } =
      "\x7b\"game_install_id\":\"x\"\x7d".data
    ∧ ({ GameInstallID := "x", Quantity := -1 } : PurchaseData).Quantity ≠ 0 := by
  constructor <;> decide

/-- C10 (amended): a record built with only `GameInstallID` supplied and all
other fields at their declared defaults serializes with an additional
`quantity` member carrying `1` (the declared default); any record with a
strictly positive quantity cannot produce the id-only object; and the
id-only object arises exactly from records whose other optional fields are
empty/zero and whose quantity was explicitly set to a non-positive value. -/
theorem claim_C10_default_quantity :
    (∀ id : String, PurchaseToJSON { GameInstallID := id } =
      "\x7b\"game_install_id\":\"".data ++ EscapeJSON id.data
        ++ "\",\"quantity\":1\x7d".data)
    ∧ (∀ p : PurchaseData, 0 < p.Quantity →
        PurchaseToJSON p ≠
          "\x7b\"game_install_id\":\"".data ++ EscapeJSON p.GameInstallID.data
            ++ "\"\x7d".data)
    ∧ (∀ p : PurchaseData, p.PurchaseType = "" → p.PurchaseAmount = 0 →
        p.Currency = "" → p.TransactionID = "" → p.ItemSKU = "" → p.ItemName = "" →
        p.MetadataJSON = "" → p.Quantity ≤ 0 →
        PurchaseToJSON p =
          "\x7b\"game_install_id\":\"".data ++ EscapeJSON p.GameInstallID.data
            ++ "\"\x7d".data) := by
  refine ⟨?_, ?_, ?_⟩
  · intro id
    simp only [PurchaseToJSON]
    norm_num
    congr 1
  · intro p hq heq
    have hlen := congrArg List.length heq
    have e1 : (("\"game_install_id\":\"" : String).data).length = 19 := rfl
    have e2 : ((",\"quantity\":" : String).data).length = 12 := rfl
    have e3 : (("\x7b\"game_install_id\":\"" : String).data).length = 20 := rfl
    have e4 : (("\"\x7d" : String).data).length = 2 := rfl
    have hi : 1 ≤ (intStr p.Quantity).length :=
      List.length_pos.mpr (intStr_ne_nil _)
    simp only [PurchaseToJSON, hq, if_true, List.length_cons, List.length_append,
      apply_ite List.length, List.length_nil, e1, e2, e3, e4] at hlen
    split_ifs at hlen <;> omega
  · intro p h1 h2 h3 h4 h5 h6 h8 h7
    exact purchase_idonly p h1 h2 h3 h4 h5 h6 h7 h8

/-- Witness for C10 at concrete records: the defaulted record is not the
id-only object, while explicitly zeroing the quantity yields it. -/
theorem claim_C10_witness :
    (PurchaseToJSON { GameInstallID := "x" } ≠
      "\x7b\"game_install_id\":\"".data ++ EscapeJSON ("x" : String).data
        ++ "\"\x7d".data)
    ∧ PurchaseToJSON { GameInstallID := "x", Quantity := 0 } =
      "\x7b\"game_install_id\":\"".data ++ EscapeJSON ("x" : String).data
        ++ "\"\x7d".data :=
  ⟨claim_C10_default_quantity.2.1 { GameInstallID := "x" } (by decide),
    claim_C10_default_quantity.2.2 { GameInstallID := "x", Quantity := 0 }
      rfl rfl rfl rfl rfl rfl rfl (by decide)⟩

end GlitchSDK
